import Mathlib

/-!
Verification of the energy-consumption analysis app (`src/energy_app.py`).

The engine is a pure transformation over a table of (hour, consumption)
records and a tariff rate. Machine floats are modelled as exact rationals
(`ℚ`); hours are integers (the source never range-checks them). The
Streamlit presentation layer is out of scope; the upload/validation flow
(lines 47-63) is embedded as an `Except`-valued pipeline, and numpy's
globally seeded pseudo-random generator is modelled as an explicit
state-passing stream in which `generate_sample_df` first resets the state
to seed 42, mirroring `np.random.seed(42)`.
-/

namespace EnergyApp

/-- A row of the input table: columns «Час» and «Потребление (кВт·ч)». -/
structure Record where
  hour : Int
  consumptionKwh : ℚ
deriving Repr, DecidableEq

/-- `THRESHOLD = 6.0` (line 66). -/
def THRESHOLD : ℚ := 6.0

/-- `df["Пик?"] = df["Потребление (кВт·ч)"] > THRESHOLD` (line 67), per row. -/
def isPeakB (r : Record) : Bool := decide (THRESHOLD < r.consumptionKwh)

/-- The fixed recommendation text of line 68. -/
def recommendationMsg : String := "Перенести нагрузку на ночь"

/-- A row of the table after the analysis section added the two derived columns. -/
structure AnnotatedRecord where
  hour : Int
  consumptionKwh : ℚ
  isPeak : Bool
  recommendation : String
deriving Repr, DecidableEq

/-- Lines 67-68: extend one row with «Пик?» and «Рекомендация»
(`np.where(df["Пик?"], "Перенести нагрузку на ночь", "")`). -/
def annotateRecord (r : Record) : AnnotatedRecord :=
  ⟨r.hour, r.consumptionKwh, isPeakB r,
    if isPeakB r then recommendationMsg else ""⟩

/-- The analysis applied to the whole table. -/
def annotate (df : List Record) : List AnnotatedRecord :=
  df.map annotateRecord

/-- `peaks = df.loc[df["Пик?"], "Час"].tolist()` (line 78). -/
def peaks (df : List Record) : List Int :=
  (df.filter isPeakB).map (·.hour)

/-- `total_kwh = df["Потребление (кВт·ч)"].sum()` (line 91). -/
def total_kwh (df : List Record) : ℚ :=
  (df.map (·.consumptionKwh)).sum

/-- `total_cost = total_kwh * tarif` (line 92). -/
def total_cost (df : List Record) (tarif : ℚ) : ℚ :=
  total_kwh df * tarif

/-- `night_tarif = tarif * 0.8` (line 93). -/
def night_tarif (tarif : ℚ) : ℚ := tarif * 0.8

/-- `peak_kwh = df.loc[df["Пик?"], "Потребление (кВт·ч)"].sum()` (line 94). -/
def peak_kwh (df : List Record) : ℚ :=
  ((df.filter isPeakB).map (·.consumptionKwh)).sum

/-- `optimized_cost = total_cost - peak_kwh * tarif + peak_kwh * night_tarif` (line 95). -/
def optimized_cost (df : List Record) (tarif : ℚ) : ℚ :=
  total_cost df tarif - peak_kwh df * tarif + peak_kwh df * night_tarif tarif

/-- `economy = total_cost - optimized_cost` (line 96). -/
def economy (df : List Record) (tarif : ℚ) : ℚ :=
  total_cost df tarif - optimized_cost df tarif

/-- `percent = (economy / total_cost * 100) if total_cost > 0 else 0` (line 97). -/
def percent (df : List Record) (tarif : ℚ) : ℚ :=
  if total_cost df tarif > 0 then economy df tarif / total_cost df tarif * 100 else 0

/-- The numeric summary shown by the savings section, plus the
hardware-mitigation advisory flag of line 105 (`if percent > 10`). -/
structure SavingsSummary where
  totalKwh : ℚ
  totalCost : ℚ
  nightTariff : ℚ
  peakKwh : ℚ
  optimizedCost : ℚ
  savings : ℚ
  savingsPercent : ℚ
  mitigationAdvisory : Bool
deriving Repr, DecidableEq

/-- The body of the `if tarif > 0:` block, lines 91-106. -/
def savingsSummary (df : List Record) (tarif : ℚ) : SavingsSummary :=
  ⟨total_kwh df, total_cost df tarif, night_tarif tarif, peak_kwh df,
    optimized_cost df tarif, economy df tarif, percent df tarif,
    decide (percent df tarif > 10)⟩

/-- Line 90: the savings section runs only when `tarif > 0`; otherwise no
summary is computed at all. -/
def savingsBlock (df : List Record) (tarif : ℚ) : Option SavingsSummary :=
  if tarif > 0 then some (savingsSummary df tarif) else none

/-! ### Pseudo-random sample generator (lines 24-33)

`np.random` is a library whose global Mersenne-Twister state is not part of
this repository; it is modelled as an explicit pseudo-random state (a linear
congruential stream) threaded through the draws, with `np.random.uniform(a, b)`
returning `a + (b - a) * u` for a stream value `u ∈ [0, 1)`, and
`np.random.seed(n)` replacing the ambient state by a state determined by `n`
alone. What the claims use is exactly what this preserves: the seeded state is
a function of the seed only, and each draw lies in its requested range. -/

abbrev RngState := Nat

/-- One step of the modelled pseudo-random stream (a 31-bit LCG). -/
def lcgNext (s : RngState) : RngState :=
  (1103515245 * s + 12345) % 2147483648

/-- `np.random.seed(n)`: the resulting state depends only on `n`. -/
def npSeed (n : Nat) : RngState := n % 2147483648

/-- `np.random.uniform(a, b)`: one draw in `[a, b)`, advancing the state. -/
def npUniform (a b : ℚ) (s : RngState) : ℚ × RngState :=
  let s' := lcgNext s
  (a + (b - a) * ((s' : ℚ) / 2147483648), s')

/-- The per-hour band selection of lines 28-30:
night if `h < 6 or h > 22`, day if `6 <= h < 17`, else evening peak. -/
def bandSample (h : Nat) (s : RngState) : ℚ × RngState :=
  if h < 6 || h > 22 then npUniform 1.5 2.5 s
  else if 6 ≤ h && h < 17 then npUniform 3.0 4.5 s
  else npUniform 6.0 8.5 s

/-- The list comprehension of lines 27-32: one draw per hour, in order. -/
def drawAll : List Nat → RngState → List ℚ × RngState
  | [], s => ([], s)
  | h :: hs, s =>
    let p := bandSample h s
    let q := drawAll hs p.2
    (p.1 :: q.1, q.2)

/-- `generate_sample_df` (lines 24-33): ignores the ambient pseudo-random
state, reseeds with 42, and builds the 24-row table
`{"Час": hours, "Потребление (кВт·ч)": consumption}`. -/
def generate_sample_df (_ambient : RngState) : List Record × RngState :=
  let s0 := npSeed 42
  let hours := List.range 24
  let d := drawAll hours s0
  ((hours.zip d.1).map (fun p => ⟨Int.ofNat p.1, p.2⟩), d.2)

/-! ### Upload, load and validation flow (lines 36-63) -/

/-- A table as produced by the loader: its column names plus the rows read
from the two required columns when present. -/
structure RawTable where
  columns : List String
  rows : List Record

/-- `required_cols = {"Час", "Потребление (кВт·ч)"}` (line 60). -/
def required_cols : List String := ["Час", "Потребление (кВт·ч)"]

/-- `required_cols.issubset(df.columns)` (line 61). -/
def validColumns (cols : List String) : Bool :=
  required_cols.all (fun c => cols.contains c)

/-- The two terminal error kinds of the flow: a parse failure (lines 55-57)
and a schema failure (lines 61-63). Each call of `st.error` is followed by
`st.stop()`, so an error ends the render with nothing but the message. -/
inductive AppError where
  | loadError (msg : String)
  | schemaError (msg : String)
deriving Repr, DecidableEq

/-- What the upload widget plus `load_file` delivered: the button-generated
sample, a successfully parsed upload, or a parse exception with its cause. -/
inductive UploadOutcome where
  | generated
  | parsed (t : RawTable)
  | parseFailed (cause : String)

/-- Everything the render shows after a successful validation: the annotated
table, the peak-hour list, and (when `tarif > 0`) the savings summary. -/
structure AnalysisOutput where
  table : List AnnotatedRecord
  peakHours : List Int
  summary : Option SavingsSummary
deriving Repr, DecidableEq

/-- Line 62: `f"В файле должны быть колонки: {', '.join(required_cols)}"`. -/
def schemaErrorMsg : String :=
  "В файле должны быть колонки: " ++ String.intercalate ", " required_cols

/-- Line 56: `f"Не удалось прочитать файл: {e}"`. -/
def loadErrorMsg (cause : String) : String :=
  "Не удалось прочитать файл: " ++ cause

/-- The full analysis on validated rows. -/
def analysisOutput (df : List Record) (tarif : ℚ) : AnalysisOutput :=
  ⟨annotate df, peaks df, savingsBlock df tarif⟩

/-- Lines 47-57: obtain `df`, or stop with the load error. The generated
sample table has exactly the two required columns (line 33). -/
def loadStage : UploadOutcome → Except AppError RawTable
  | .generated => .ok ⟨required_cols, (generate_sample_df 0).1⟩
  | .parsed t => .ok t
  | .parseFailed cause => .error (.loadError (loadErrorMsg cause))

/-- Lines 59-63: stop with the schema error unless both required columns are
present. -/
def validateStage (t : RawTable) : Except AppError RawTable :=
  if validColumns t.columns then .ok t
  else .error (.schemaError schemaErrorMsg)

/-- The whole render pipeline: load, validate, then analyse. An error at any
stage is terminal — nothing downstream of it is computed. -/
def runApp (u : UploadOutcome) (tarif : ℚ) : Except AppError AnalysisOutput :=
  match loadStage u with
  | .error e => .error e
  | .ok raw =>
    match validateStage raw with
    | .error e => .error e
    | .ok t => .ok (analysisOutput t.rows tarif)

/-- The end-to-end test table [(0,2.0),(8,4.0),(18,7.0),(19,7.5)]. -/
def e2eTable : List Record :=
  [⟨0, 2.0⟩, ⟨8, 4.0⟩, ⟨18, 7.0⟩, ⟨19, 7.5⟩]

/-- The time-of-day consumption band of the generator, as a predicate on a
generated row (same band selection as lines 28-30). -/
def inBand (r : Record) : Bool :=
  if r.hour < 6 || r.hour > 22 then
    decide ((1.5 : ℚ) ≤ r.consumptionKwh ∧ r.consumptionKwh ≤ 2.5)
  else if 6 ≤ r.hour && r.hour < 17 then
    decide ((3.0 : ℚ) ≤ r.consumptionKwh ∧ r.consumptionKwh ≤ 4.5)
  else
    decide ((6.0 : ℚ) ≤ r.consumptionKwh ∧ r.consumptionKwh ≤ 8.5)

/-- Peak energy is a sum of per-record consumptions each strictly above the
threshold, hence nonnegative. -/
theorem peak_kwh_nonneg (df : List Record) : 0 ≤ peak_kwh df := by
  apply List.sum_nonneg
  intro x hx
  obtain ⟨r, hr, rfl⟩ := List.mem_map.1 hx
  have hp : isPeakB r = true := (List.mem_filter.1 hr).2
  have h6 : THRESHOLD < r.consumptionKwh := by simpa [isPeakB] using hp
  have h0 : (0 : ℚ) < THRESHOLD := by norm_num [THRESHOLD]
  linarith

/-- C1: for every table and every record in it, `isPeak` is true iff the
record's consumption strictly exceeds the fixed threshold 6.0; in
particular consumption exactly 6.0 is not a peak and 6.0001 is. -/
theorem peak_iff_threshold (df : List Record) (a : AnnotatedRecord)
    (ha : a ∈ annotate df) :
    (a.isPeak = true ↔ a.consumptionKwh > 6.0)
    ∧ (annotateRecord ⟨0, 6.0⟩).isPeak = false
    ∧ (annotateRecord ⟨0, 6.0001⟩).isPeak = true := by
  refine ⟨?_, by norm_num [annotateRecord, isPeakB, THRESHOLD],
    by norm_num [annotateRecord, isPeakB, THRESHOLD]⟩
  obtain ⟨r, hr, rfl⟩ := List.mem_map.1 ha
  simp [annotateRecord, isPeakB, THRESHOLD]

/-- Witness for C1 at the one-row table [(0, 7)]. -/
theorem peak_iff_threshold_witness :
    ((annotateRecord ⟨0, 7⟩).isPeak = true
        ↔ (annotateRecord ⟨0, 7⟩).consumptionKwh > 6.0)
    ∧ (annotateRecord ⟨0, 6.0⟩).isPeak = false
    ∧ (annotateRecord ⟨0, 6.0001⟩).isPeak = true :=
  peak_iff_threshold [⟨0, 7⟩] (annotateRecord ⟨0, 7⟩) (by simp [annotate])

/-- C2: for every table and every tariff ≥ 0, savings equals
`peakKwh * (tariff - nightTariff)` with `nightTariff = tariff * 0.8`
(so savings is `0.2 * tariff * peakKwh`), and `optimizedCost ≤ totalCost`. -/
theorem savings_formula_and_nonneg (df : List Record) (tarif : ℚ)
    (h : 0 ≤ tarif) :
    economy df tarif = peak_kwh df * (tarif - night_tarif tarif)
    ∧ night_tarif tarif = tarif * 0.8
    ∧ economy df tarif = 0.2 * tarif * peak_kwh df
    ∧ optimized_cost df tarif ≤ total_cost df tarif := by
  have hpk := peak_kwh_nonneg df
  refine ⟨?_, rfl, ?_, ?_⟩
  · unfold economy optimized_cost; ring
  · unfold economy optimized_cost night_tarif; ring
  · unfold optimized_cost night_tarif
    nlinarith

/-- Witness for C2 at the one-row table [(0, 7)] with tariff 1. -/
theorem savings_formula_and_nonneg_witness :
    economy [⟨0, 7⟩] 1 = peak_kwh [⟨0, 7⟩] * (1 - night_tarif 1)
    ∧ night_tarif 1 = 1 * 0.8
    ∧ economy [⟨0, 7⟩] 1 = 0.2 * 1 * peak_kwh [⟨0, 7⟩]
    ∧ optimized_cost [⟨0, 7⟩] 1 ≤ total_cost [⟨0, 7⟩] 1 :=
  savings_formula_and_nonneg [⟨0, 7⟩] 1 (by norm_num)

/-- C3: the end-to-end scenario on [(0,2.0),(8,4.0),(18,7.0),(19,7.5)] with
tariff 6.5: totalKwh 20.5, totalCost 133.25, peakKwh 14.5, nightTariff 5.2,
optimizedCost 114.4, savings 18.85, savingsPercent ≈ 14.15, peak hours
[18, 19], and the mitigation advisory fires. -/
theorem end_to_end_scenario :
    total_kwh e2eTable = 20.5
    ∧ total_cost e2eTable 6.5 = 133.25
    ∧ peak_kwh e2eTable = 14.5
    ∧ night_tarif 6.5 = 5.2
    ∧ optimized_cost e2eTable 6.5 = 114.4
    ∧ economy e2eTable 6.5 = 18.85
    ∧ |percent e2eTable 6.5 - 14.15| < 1 / 100
    ∧ peaks e2eTable = [18, 19]
    ∧ (savingsSummary e2eTable 6.5).mitigationAdvisory = true
    ∧ savingsBlock e2eTable 6.5 = some (savingsSummary e2eTable 6.5) := by
  refine ⟨?_, ?_, ?_, ?_, ?_, ?_, ?_, ?_, ?_, ?_⟩ <;>
    norm_num [savingsBlock, savingsSummary, percent, economy, optimized_cost,
      total_cost, total_kwh, peak_kwh, night_tarif, peaks, e2eTable, isPeakB,
      THRESHOLD, List.filter, abs]

/-- C4 counterexample: at tariff 0 the savings block is skipped entirely
(line 90 guards it with `tarif > 0`), so no summary is produced — the
pipeline still succeeds, but its summary component is `none`. -/
theorem zero_tariff_no_summary :
    savingsBlock e2eTable 0 = none
    ∧ runApp (.parsed ⟨required_cols, e2eTable⟩) 0
        = .ok ⟨annotate e2eTable, peaks e2eTable, none⟩ := by
  constructor
  · simp [savingsBlock]
  · simp [runApp, loadStage, validateStage, validColumns, required_cols,
      analysisOutput, savingsBlock]

/-- C4 amended: when the savings block does run, a zero total cost never
causes a division fault — `savingsPercent` is defined as 0; and at tariff 0
the block is skipped, producing no summary and raising no error. -/
theorem percent_zero_guard (df : List Record) (tarif : ℚ)
    (htc : total_cost df tarif = 0) :
    (savingsSummary df tarif).savingsPercent = 0
    ∧ savingsBlock df 0 = none := by
  constructor
  · simp [savingsSummary, percent, htc]
  · simp [savingsBlock]

/-- Witness for the amended C4 at the all-zero one-row table with tariff 1. -/
theorem percent_zero_guard_witness :
    (savingsSummary [⟨0, 0⟩] 1).savingsPercent = 0
    ∧ savingsBlock [⟨0, 0⟩] 0 = none :=
  percent_zero_guard [⟨0, 0⟩] 1 (by norm_num [total_cost, total_kwh])

/-- C5: for every record of every annotated table, the recommendation is
non-empty iff `isPeak`, and equals the fixed shift-to-night message when
`isPeak` and the empty string otherwise. -/
theorem recommendation_iff_peak (df : List Record) (a : AnnotatedRecord)
    (ha : a ∈ annotate df) :
    (a.recommendation ≠ "" ↔ a.isPeak = true)
    ∧ a.recommendation = (if a.isPeak then recommendationMsg else "") := by
  obtain ⟨r, hr, rfl⟩ := List.mem_map.1 ha
  by_cases hp : isPeakB r <;>
    simp [annotateRecord, hp, recommendationMsg]

/-- Witness for C5 at the one-row table [(1, 8)]. -/
theorem recommendation_iff_peak_witness :
    ((annotateRecord ⟨1, 8⟩).recommendation ≠ ""
        ↔ (annotateRecord ⟨1, 8⟩).isPeak = true)
    ∧ (annotateRecord ⟨1, 8⟩).recommendation
        = (if (annotateRecord ⟨1, 8⟩).isPeak then recommendationMsg else "") :=
  recommendation_iff_peak [⟨1, 8⟩] (annotateRecord ⟨1, 8⟩) (by simp [annotate])

/-- C6: analysis proceeds iff both required columns are present; otherwise
the run ends in a schema error naming the required columns, with no
classification or savings computed. -/
theorem schema_validation_gates_analysis (t : RawTable) (tarif : ℚ) :
    runApp (.parsed t) tarif =
      (if validColumns t.columns then Except.ok (analysisOutput t.rows tarif)
        else Except.error (.schemaError schemaErrorMsg))
    ∧ schemaErrorMsg = "В файле должны быть колонки: Час, Потребление (кВт·ч)" := by
  constructor
  · by_cases h : validColumns t.columns <;>
      simp [runApp, loadStage, validateStage, h]
  · rfl

/-- C7: a parse failure surfaces the underlying cause and halts — the run's
only output is the load error carrying the cause; no table, no analysis. -/
theorem load_failure_halts (cause : String) (tarif : ℚ) :
    runApp (.parseFailed cause) tarif
        = .error (.loadError (loadErrorMsg cause))
    ∧ loadErrorMsg cause = "Не удалось прочитать файл: " ++ cause :=
  ⟨rfl, rfl⟩

/-- C8: the sample generator is deterministic — whatever the ambient
pseudo-random state, the produced table is the same, because the state is
reset from the constant seed 42 before any draw. -/
theorem sample_generator_deterministic (s1 s2 : RngState) :
    (generate_sample_df s1).1 = (generate_sample_df s2).1 := rfl

set_option maxHeartbeats 2000000 in
/-- C9: every generated table has exactly 24 rows, hours 0..23 in order,
and each hour's consumption lies in the band for its time of day. -/
theorem sample_table_shape (s : RngState) :
    ((generate_sample_df s).1).length = 24
    ∧ ((generate_sample_df s).1).map (·.hour) = (List.range 24).map Int.ofNat
    ∧ ((generate_sample_df s).1).all inBand = true := by
  have he : generate_sample_df s = generate_sample_df 0 := rfl
  have hr : List.range 24
      = [0, 1, 2, 3, 4, 5, 6, 7, 8, 9, 10, 11, 12,
          13, 14, 15, 16, 17, 18, 19, 20, 21, 22, 23] := rfl
  rw [he]
  refine ⟨?_, ?_, ?_⟩ <;>
    norm_num [generate_sample_df, drawAll, bandSample, npUniform, lcgNext,
      npSeed, inBand, hr]

/-- C10: no check rejects negative consumption — a record with negative
consumption passes column validation, is classified as not peak, enters the
sums unchanged, and makes `totalKwh` and `totalCost` negative. -/
theorem negative_consumption_accepted (r : Record) (df : List Record)
    (tarif : ℚ) (hneg : r.consumptionKwh < 0) (ht : 0 < tarif) :
    isPeakB r = false
    ∧ annotateRecord r = ⟨r.hour, r.consumptionKwh, false, ""⟩
    ∧ total_kwh (r :: df) = r.consumptionKwh + total_kwh df
    ∧ runApp (.parsed ⟨required_cols, r :: df⟩) tarif
        = .ok (analysisOutput (r :: df) tarif)
    ∧ total_kwh [r] < 0
    ∧ total_cost [r] tarif < 0 := by
  have hle : r.consumptionKwh ≤ THRESHOLD := by
    unfold THRESHOLD; linarith
  have hnp : isPeakB r = false := by
    unfold isPeakB; exact decide_eq_false (not_lt.mpr hle)
  have hv : validColumns required_cols = true := rfl
  refine ⟨hnp, ?_, ?_, ?_, ?_, ?_⟩
  · simp [annotateRecord, hnp]
  · simp [total_kwh]
  · simp [runApp, loadStage, validateStage, hv]
  · simpa [total_kwh] using hneg
  · have hc : total_cost [r] tarif = r.consumptionKwh * tarif := by
      simp [total_cost, total_kwh]
    rw [hc]
    exact mul_neg_of_neg_of_pos hneg ht

/-- Witness for C10 at the record (0, -5) with tariff 1. -/
theorem negative_consumption_accepted_witness :
    isPeakB ⟨0, -5⟩ = false
    ∧ annotateRecord ⟨0, -5⟩ = ⟨0, -5, false, ""⟩
    ∧ total_kwh [⟨0, -5⟩] = -5 + total_kwh []
    ∧ runApp (.parsed ⟨required_cols, [⟨0, -5⟩]⟩) 1
        = .ok (analysisOutput [⟨0, -5⟩] 1)
    ∧ total_kwh [⟨0, -5⟩] < 0
    ∧ total_cost [⟨0, -5⟩] 1 < 0 :=
  negative_consumption_accepted ⟨0, -5⟩ [] 1 (by norm_num) (by norm_num)

end EnergyApp
